import Mathlib

/-!
Verification of the NowClipboard library core (src/NowClipboard.esm.mjs)
against its natural-language specification.

The JavaScript source is shallowly embedded: promise-returning functions
become pure Lean functions from an explicit environment (feature flags,
process-spawn behaviour, API outcomes) to `Except`-valued results; observable
side effects (which mechanisms were attempted, which processes were spawned,
which delays were scheduled) are returned as explicit traces; wall-clock time
is modelled by attaching completion times in natural-number milliseconds.
JavaScript `Error` values are modelled by their message strings.
-/

-- ====================================================================
-- Retry configuration  (source: parseRetryConfig, lines 594-604)
-- ====================================================================

/-- The JavaScript `options` argument of `retryOperation` / `copyText`:
either a bare number (legacy shorthand for `retries`), an object with
optional `retries` / `retryDelay` / `timeout` fields (a missing field is
JS `undefined`, i.e. `none`), or omitted altogether (`undef`). -/
inductive RetryConfigInput : Type
  | num (n : Nat)
  | obj (retries : Option Nat) (retryDelay : Option Nat) (timeout : Option Int)
  | undef
deriving DecidableEq

/-- Parsed retry configuration (source object `{retries, retryDelay, timeout}`). -/
structure RetryConfig where
  retries : Nat
  retryDelay : Nat
  timeout : Int
deriving DecidableEq

/-- Source `parseRetryConfig(options)`: a bare number is shorthand for
`retries`; object fields default to `retries = 2`, `retryDelay = 100`,
`timeout = 0` (the source tests `opts.x != null ? opts.x : default`). -/
def parseRetryConfig : RetryConfigInput → RetryConfig
  | RetryConfigInput.num n => ⟨n, 100, 0⟩
  | RetryConfigInput.obj r d t => ⟨r.getD 2, d.getD 100, t.getD 0⟩
  | RetryConfigInput.undef => ⟨2, 100, 0⟩

-- ====================================================================
-- Retry loop  (source: retryOperation's inner `tryOnce`, lines 637-648)
-- ====================================================================

/-- Source inner function `tryOnce` of `retryOperation`.  The operation is
modelled as a function of the invocation index (0-based), so an individual
invocation's outcome can differ per attempt.  The source keeps a mutable
counter `attempt` and checks `attempt + 1 > cfg.retries` after a failure; we
carry `attempt` together with `remaining = cfg.retries - attempt`, so that the
source's test `attempt + 1 > retries` is exactly `remaining = 0` and the
recursion is structural.  Returns `(settled result, number of invocations
performed, list of backoff delays scheduled, in order)`.  The scheduled delay
after the failed invocation `attempt` is the source's
`Math.pow(2, (attempt+1) - 1) * cfg.retryDelay = 2 ^ attempt * retryDelay`. -/
def tryOnce {ε α : Type} (op : Nat → Except ε α) (retryDelay : Nat) :
    Nat → Nat → Except ε α × Nat × List Nat
  | attempt, remaining =>
    match op attempt with
    | Except.ok a => (Except.ok a, 1, [])
    | Except.error e =>
      match remaining with
      | 0 => (Except.error e, 1, [])
      | Nat.succ r =>
        let rest := tryOnce op retryDelay (attempt + 1) r
        (rest.1, rest.2.1 + 1, 2 ^ attempt * retryDelay :: rest.2.2)

-- ====================================================================
-- Timeout race  (source: withTimeout, lines 612-626)
-- ====================================================================

/-- Source `withTimeout(promise, ms)`.  A settled promise is modelled by its
completion time (ms since the call) and its result.  For `ms <= 0` (the
source's `!ms || ms <= 0`) the promise is returned untouched, no timer is
installed.  Otherwise the promise is raced against a single timer firing at
`ms`: if the promise would settle strictly after `ms` the timer wins and the
caller observes `new Error('Operation timed out after ' + ms + 'ms')` at time
`ms`; otherwise the promise's own settlement wins and the timer is cleared. -/
def withTimeout {α : Type} (time : Nat) (result : Except String α) (ms : Int) :
    Nat × Except String α :=
  if ms ≤ 0 then (time, result)
  else if (time : Int) > ms then
    (ms.toNat, Except.error ("Operation timed out after " ++ toString ms ++ "ms"))
  else (time, result)

-- ====================================================================
-- retryOperation  (source lines 633-651)
-- ====================================================================

/-- Total duration of the first `n` operation invocations, `dur k` being the
wall-clock duration of invocation `k`. -/
def sumDur (dur : Nat → Nat) (n : Nat) : Nat :=
  ((List.range n).map dur).sum

/-- Everything the caller of `retryOperation` can observe: the time and
result of the settlement it sees, plus the instrumentation of the underlying
retry sequence (how often the operation was invoked — the sequence keeps
running in the background even if the timeout timer fired first — and which
backoff delays were scheduled). -/
structure RetryOutcome (α : Type) where
  time : Nat
  result : Except String α
  invocations : Nat
  delays : List Nat

/-- Source `retryOperation(fn, config)`: parse the configuration, run the
retry loop `tryOnce` starting at attempt 0, and race the whole sequence
against a single timer via `withTimeout(tryOnce(), cfg.timeout)`.  The
sequence settles at the sum of all invocation durations and scheduled backoff
delays. -/
def retryOperation {α : Type} (op : Nat → Except String α) (dur : Nat → Nat)
    (config : RetryConfigInput) : RetryOutcome α :=
  let cfg := parseRetryConfig config
  let r := tryOnce op cfg.retryDelay 0 cfg.retries
  let elapsed := sumDur dur r.2.1 + r.2.2.sum
  let raced := withTimeout elapsed r.1 cfg.timeout
  ⟨raced.1, raced.2, r.2.1, r.2.2⟩

-- ====================================================================
-- Helper lemmas about the retry loop
-- ====================================================================

/-- On a permanently failing operation, `tryOnce` starting at `attempt` with
`remaining` retries left performs `remaining + 1` invocations, settles with
the error of the last invocation (index `attempt + remaining`), and schedules
the exponential-backoff delays `2 ^ (attempt + i) * D` for `i < remaining`. -/
theorem tryOnce_allFail {ε α : Type} (op : Nat → Except ε α) (e : Nat → ε) (D : Nat)
    (h : ∀ k, op k = Except.error (e k)) :
    ∀ remaining attempt, tryOnce op D attempt remaining =
      (Except.error (e (attempt + remaining)), remaining + 1,
        (List.range remaining).map (fun i => 2 ^ (attempt + i) * D)) := by
  intro remaining
  induction remaining with
  | zero =>
      intro attempt
      simp [tryOnce, h attempt]
  | succ r ih =>
      intro attempt
      have harg : attempt + (r + 1) = attempt + 1 + r := by omega
      simp only [tryOnce, h attempt, ih (attempt + 1), harg]
      refine Prod.ext rfl (Prod.ext rfl ?_)
      rw [List.range_succ_eq_map, List.map_cons, List.map_map]
      refine congrArg₂ List.cons (by simp) ?_
      apply List.map_congr_left
      intro i _
      have hi : attempt + (i + 1) = attempt + 1 + i := by omega
      simp [Function.comp, Nat.succ_eq_add_one, hi]

/-- Whatever the operation does, the delays scheduled by `tryOnce` starting
at `attempt` form an initial segment of the exponential-backoff sequence
`2 ^ (attempt + i) * D`. -/
theorem tryOnce_delays {ε α : Type} (op : Nat → Except ε α) (D : Nat) :
    ∀ remaining attempt, ∃ m, (tryOnce op D attempt remaining).2.2 =
      (List.range m).map (fun i => 2 ^ (attempt + i) * D) := by
  intro remaining
  induction remaining with
  | zero =>
      intro attempt
      refine ⟨0, ?_⟩
      rw [tryOnce]
      cases op attempt <;> simp
  | succ r ih =>
      intro attempt
      cases hop : op attempt with
      | ok a =>
          refine ⟨0, ?_⟩
          rw [tryOnce, hop]
          rfl
      | error e =>
          obtain ⟨m, hm⟩ := ih (attempt + 1)
          refine ⟨m + 1, ?_⟩
          rw [tryOnce, hop]
          show 2 ^ attempt * D :: (tryOnce op D (attempt + 1) r).2.2 =
            (List.range (m + 1)).map (fun i => 2 ^ (attempt + i) * D)
          rw [hm, List.range_succ_eq_map, List.map_cons, List.map_map]
          refine congrArg₂ List.cons (by simp) ?_
          apply List.map_congr_left
          intro i _
          have hi : attempt + (i + 1) = attempt + 1 + i := by omega
          simp [Function.comp, Nat.succ_eq_add_one, hi]

-- ====================================================================
-- OS Process Adapter: write  (source: nodeClipboardCopy, lines 660-715,
-- and nodeClipboardCopyFallback, lines 720-751)
-- ====================================================================

/-- Outcome of one `child_process.spawn` call, as the source observes it:
`spawnThrow` models `spawn` itself throwing synchronously (the source's
surrounding `try/catch`), `spawnError` models the asynchronous `'error'`
event (binary missing), `exit code` models the `'close'` event. -/
inductive ProcOutcome : Type
  | spawnThrow (msg : String)
  | spawnError (msg : String)
  | exit (code : Int)
deriving DecidableEq

/-- The process environment: what happens when a given command is spawned
with given arguments. -/
def SpawnEnv : Type := String → List String → ProcOutcome

/-- Platform dispatch of the write command (source lines 669-679):
`clip` on `win32`, `pbcopy` on `darwin`, otherwise `xclip -selection
clipboard`. `process.platform` is a string, kept as such. -/
def writeCmdArgs (platform : String) : String × List String :=
  if platform = "win32" then ("clip", [])
  else if platform = "darwin" then ("pbcopy", [])
  else ("xclip", ["-selection", "clipboard"])

/-- A spawn attempt recorded for observation: command, arguments, and the
text delivered on the process's standard input. -/
def SpawnTrace : Type := List (String × List String × String)

/-- Source `nodeClipboardCopyFallback(text)`: spawn
`xsel --clipboard --input`, write `text` to its stdin.  `'error'` event →
reject naming both utilities; exit 0 → resolve with the text; non-zero exit →
reject with the code.  Also returns the spawn trace. -/
def nodeClipboardCopyFallback (text : String) (env : SpawnEnv) :
    Except String String × SpawnTrace :=
  let tr : SpawnTrace := [("xsel", ["--clipboard", "--input"], text)]
  match env "xsel" ["--clipboard", "--input"] with
  | ProcOutcome.spawnThrow m => (Except.error ("Failed to spawn xsel: " ++ m), tr)
  | ProcOutcome.spawnError m =>
      (Except.error ("No clipboard command available. Install xclip or xsel. " ++ m), tr)
  | ProcOutcome.exit code =>
      (if code = 0 then Except.ok text
       else Except.error ("xsel exited with code: " ++ toString code), tr)

/-- Source `nodeClipboardCopy(text)`: guard on the Node environment, pick the
platform's write command, spawn it, pipe `text` to stdin.  An `'error'` event
on a platform that is neither `win32` nor `darwin` falls back to
`nodeClipboardCopyFallback`; on `win32`/`darwin` it is terminal.  Exit 0
resolves with the original text; a non-zero exit rejects with the code. -/
def nodeClipboardCopy (isNode : Bool) (text : String) (platform : String)
    (env : SpawnEnv) : Except String String × SpawnTrace :=
  if isNode = false then (Except.error "Not running in Node.js environment", [])
  else
    let ca := writeCmdArgs platform
    match env ca.1 ca.2 with
    | ProcOutcome.spawnThrow m =>
        (Except.error ("Failed to spawn clipboard process: " ++ m), [(ca.1, ca.2, text)])
    | ProcOutcome.spawnError m =>
        if platform ≠ "win32" ∧ platform ≠ "darwin" then
          let fb := nodeClipboardCopyFallback text env
          (fb.1, (ca.1, ca.2, text) :: fb.2)
        else
          (Except.error ("Clipboard command failed: " ++ ca.1 ++ " - " ++ m),
            [(ca.1, ca.2, text)])
    | ProcOutcome.exit code =>
        ((if code = 0 then Except.ok text
          else Except.error ("Clipboard command exited with code: " ++ toString code)),
          [(ca.1, ca.2, text)])

-- ====================================================================
-- OS Process Adapter: read  (source: nodeClipboardRead, lines 757-815,
-- and nodeClipboardReadFallback, lines 821-854)
-- ====================================================================

/-- Behaviour of one spawned read process: its final spawn/exit outcome and
the accumulated standard-output text (the source concatenates all `'data'`
chunks into one string). -/
structure ReadProcBehavior where
  outcome : ProcOutcome
  output : String

/-- The read-side process environment. -/
def ReadEnv : Type := String → List String → ReadProcBehavior

/-- Platform dispatch of the read command (source lines 766-776):
`powershell -command Get-Clipboard` on `win32`, `pbpaste` on `darwin`,
otherwise `xclip -selection clipboard -o`. -/
def readCmdArgs (platform : String) : String × List String :=
  if platform = "win32" then ("powershell", ["-command", "Get-Clipboard"])
  else if platform = "darwin" then ("pbpaste", [])
  else ("xclip", ["-selection", "clipboard", "-o"])

/-- The source's `output.replace(/\r?\n$/, '')` applied to the Windows read
result: remove exactly one trailing line terminator — a final `"\r\n"` or,
failing that, a final `"\n"` — and leave any other string unchanged.
Implemented on the string's character list. -/
def stripTrailingNewline (s : String) : String :=
  if s.data.getLast? = some '\n' then
    let l1 := s.data.dropLast
    if l1.getLast? = some '\r' then String.mk l1.dropLast else String.mk l1
  else s

/-- Source `nodeClipboardReadFallback()`: spawn `xsel --clipboard --output`,
accumulate stdout.  `'error'` event → reject naming both utilities; exit 0 →
resolve with the accumulated output; non-zero exit → reject with the code. -/
def nodeClipboardReadFallback (env : ReadEnv) : Except String String :=
  let b := env "xsel" ["--clipboard", "--output"]
  match b.outcome with
  | ProcOutcome.spawnThrow m => Except.error ("Failed to spawn xsel for read: " ++ m)
  | ProcOutcome.spawnError m =>
      Except.error ("No clipboard read command available. Install xclip or xsel. " ++ m)
  | ProcOutcome.exit code =>
      if code = 0 then Except.ok b.output
      else Except.error ("xsel read exited with code: " ++ toString code)

/-- Source `nodeClipboardRead()`: guard on the Node environment, pick the
platform's read command, spawn it, accumulate stdout.  On exit 0 resolve with
the accumulated output, additionally stripped of one trailing line terminator
on `win32` only.  Non-zero exit rejects with the code; an `'error'` event
falls back to `xsel` on platforms other than `win32`/`darwin` and is terminal
otherwise. -/
def nodeClipboardRead (isNode : Bool) (platform : String) (env : ReadEnv) :
    Except String String :=
  if isNode = false then Except.error "Not running in Node.js environment"
  else
    let ca := readCmdArgs platform
    let b := env ca.1 ca.2
    match b.outcome with
    | ProcOutcome.spawnThrow m =>
        Except.error ("Failed to spawn clipboard read process: " ++ m)
    | ProcOutcome.spawnError m =>
        if platform ≠ "win32" ∧ platform ≠ "darwin" then nodeClipboardReadFallback env
        else Except.error ("Clipboard read command failed: " ++ ca.1 ++ " - " ++ m)
    | ProcOutcome.exit code =>
        if code = 0 then
          Except.ok (if platform = "win32" then stripTrailingNewline b.output else b.output)
        else Except.error ("Clipboard read command exited with code: " ++ toString code)

-- ====================================================================
-- Browser environment & the text write strategy chain
-- (source: isClipboardAPIAvailable lines 36-41, modernCopy lines 240-244,
--  legacyCopy lines 249-270, copyText lines 323-351)
-- ====================================================================

/-- The mechanisms the text chain can attempt, for trace observation. -/
inductive Mech : Type
  | modern
  | legacy
  | node
deriving DecidableEq

/-- The host environment as the library probes it: `_isBrowser`
(`window`/`document` defined), `_isNode` (`process.versions.node` present),
whether `navigator.clipboard.writeText` is a function, the outcome of a
`navigator.clipboard.writeText` call, the success of
`document.execCommand('copy')` (the selection mechanics of `legacyCopy` —
offscreen textarea, select, remove, clear selection — are external DOM
collaborators per the spec; their observable result is this boolean, with a
thrown exception treated as `false` by the source), and the Node side
platform and process behaviour. -/
structure JsEnv where
  isBrowser : Bool
  isNode : Bool
  navWriteText : Bool
  writeTextOutcome : Except String Unit
  execCopyOk : Bool
  platform : String
  spawn : SpawnEnv

/-- Source `isClipboardAPIAvailable()`: browser context and
`navigator.clipboard.writeText` is a function. -/
def isClipboardAPIAvailable (env : JsEnv) : Bool :=
  env.isBrowser && env.navWriteText

/-- Source `modernCopy(text)`: `navigator.clipboard.writeText(text).then(()
=> text)` — resolves with the text iff the API call resolved. -/
def modernCopy (env : JsEnv) (text : String) : Except String String :=
  match env.writeTextOutcome with
  | Except.ok _ => Except.ok text
  | Except.error e => Except.error e

/-- Source `legacyCopy(text, container)`: offscreen-textarea +
`document.execCommand('copy')`; resolves with the text on success, rejects
with `'execCommand copy failed'` otherwise. -/
def legacyCopy (env : JsEnv) (text : String) : Except String String :=
  if env.execCopyOk then Except.ok text
  else Except.error "execCommand copy failed"

/-- One attempt of the source `copyText` chain (the thunk passed to
`retryOperation`, lines 327-350), together with the ordered trace of
mechanisms invoked.  Each failure is pattern-matched (fully observed) before
the next mechanism's result is computed. -/
def copyTextAttempt (env : JsEnv) (text : String) :
    Except String String × List Mech :=
  if isClipboardAPIAvailable env then
    match modernCopy env text with
    | Except.ok t => (Except.ok t, [Mech.modern])
    | Except.error _ =>
      if env.isBrowser then (legacyCopy env text, [Mech.modern, Mech.legacy])
      else (Except.error "Clipboard API failed and no fallback available", [Mech.modern])
  else if env.isBrowser then
    (legacyCopy env text, [Mech.legacy])
  else if env.isNode then
    ((nodeClipboardCopy env.isNode text env.platform env.spawn).1, [Mech.node])
  else
    (Except.error "No clipboard method available in this environment", [])

/-- The chain as the claim and spec §4.3 word it, step by step, first
applicable wins: (1) in-process asynchronous write API detected → invoke it;
on its failure fall back to the legacy selection-based mechanism only when an
interactive document context exists, otherwise fail with `'Clipboard API
failed and no fallback available'`; (2) no such API but an interactive
document context → legacy mechanism; (3) headless Node process → OS Process
Adapter write; (4) otherwise reject with `'No clipboard method available in
this environment'`. -/
def copyTextChainSpec (env : JsEnv) (text : String) :
    Except String String × List Mech :=
  if isClipboardAPIAvailable env then
    match modernCopy env text with
    | Except.ok t => (Except.ok t, [Mech.modern])
    | Except.error _ =>
      if env.isBrowser then (legacyCopy env text, [Mech.modern, Mech.legacy])
      else (Except.error "Clipboard API failed and no fallback available", [Mech.modern])
  else if env.isBrowser then
    (legacyCopy env text, [Mech.legacy])
  else if env.isNode && !env.isBrowser then
    ((nodeClipboardCopy true text env.platform env.spawn).1, [Mech.node])
  else
    (Except.error "No clipboard method available in this environment", [])

/-- Source `copyText(text, options)`: the attempt chain under
`retryOperation`.  The environment is probed afresh on every attempt but is
constant here, so each retry repeats the same attempt; the mechanism trace
accumulates one copy of the attempt's trace per invocation. -/
def copyText (text : String) (env : JsEnv) (options : RetryConfigInput) :
    Except String String × List Mech :=
  let cfg := parseRetryConfig options
  let att := copyTextAttempt env text
  let r := tryOnce (fun _ => att.1) cfg.retryDelay 0 cfg.retries
  (r.1, (List.replicate r.2.1 att.2).flatten)

-- ====================================================================
-- Public copy entry  (source: NowClipboard.copy, lines 1261-1266)
-- ====================================================================

/-- A JavaScript argument value, as far as `_isString` discriminates it. -/
inductive JsVal : Type
  | str (s : String)
  | num (n : Int)
  | boolean (b : Bool)
  | nullV
  | undefinedV
deriving DecidableEq

/-- Source `_isString(val)` (`typeof val === 'string'`; boxed `String`
objects also pass in the source and are modelled by `str` as well). -/
def isStringVal : JsVal → Bool
  | JsVal.str _ => true
  | _ => false

namespace NowClipboard

/-- Source `NowClipboard.copy(text, options)`: a non-string argument rejects
immediately with `TypeError('NowClipboard.copy() expects a string argument')`
and no clipboard mechanism is attempted (empty mechanism trace); a string
argument is handed to `copyText`. -/
def copy (v : JsVal) (env : JsEnv) (options : RetryConfigInput) :
    Except String String × List Mech :=
  match v with
  | JsVal.str s => copyText s env options
  | _ => (Except.error "NowClipboard.copy() expects a string argument", [])

end NowClipboard

-- ====================================================================
-- Permission query  (source: queryClipboardPermission, lines 873-887,
-- and NowClipboard.queryPermission, lines 1321-1329)
-- ====================================================================

/-- Outcome of a `navigator.permissions.query({name})` call: it resolves
with a state string, rejects, or throws synchronously. -/
inductive QueryOutcome : Type
  | resolved (state : String)
  | rejected
  | throws
deriving DecidableEq

/-- Environment for the permission subsystem: context flags, whether
`navigator.permissions.query` exists as a function, and what a query for a
given permission name does. -/
structure PermEnv where
  isBrowser : Bool
  isNode : Bool
  hasPermissionsQuery : Bool
  queryOutcome : String → QueryOutcome

/-- The resolved value `{ state: ... }`. -/
structure PermissionStatus where
  state : String
deriving DecidableEq

/-- Source `queryClipboardPermission(permissionName)`: outside a browser, or
without `navigator.permissions.query`, resolve `{state: 'prompt'}`; otherwise
query, mapping a resolution to its state, and both a rejection and a
synchronous throw to `{state: 'prompt'}`.  It always resolves. -/
def queryClipboardPermission (permissionName : String) (env : PermEnv) :
    PermissionStatus :=
  if !env.isBrowser || !env.hasPermissionsQuery then ⟨"prompt"⟩
  else
    match env.queryOutcome permissionName with
    | QueryOutcome.resolved s => ⟨s⟩
    | QueryOutcome.rejected => ⟨"prompt"⟩
    | QueryOutcome.throws => ⟨"prompt"⟩

namespace NowClipboard

/-- Source `NowClipboard.queryPermission(name)`: a name other than `'read'`
or `'write'` rejects with a `TypeError`; in a Node context it resolves
`{state: 'granted'}`; otherwise it defers to `queryClipboardPermission` on
`'clipboard-' + name` (which always resolves). -/
def queryPermission (name : String) (env : PermEnv) :
    Except String PermissionStatus :=
  if name ≠ "read" ∧ name ≠ "write" then
    Except.error "queryPermission() expects \"read\" or \"write\""
  else if env.isNode then Except.ok ⟨"granted"⟩
  else Except.ok (queryClipboardPermission ("clipboard-" ++ name) env)

end NowClipboard

-- ====================================================================
-- Paste-data parsing  (source: parsePasteData, lines 992-1005)
-- ====================================================================

/-- A `DataTransfer`-like object as `parsePasteData` probes it.  Each
accessor either throws (`Except.error ()`) or yields a value; `getData`'s
value is `none` for a falsy non-string return (coerced to `''` by the
source's `|| ''`), and the `files` property is `none` when absent/null. -/
structure ClipboardDataModel (F : Type) where
  getDataText : Except Unit (Option String)
  getDataHtml : Except Unit (Option String)
  files : Except Unit (Option (List F))

/-- The record `{ text, html, files }` returned by `parsePasteData`. -/
structure PasteResult (F : Type) where
  text : String
  html : String
  files : List F

/-- Source `parsePasteData(clipboardData)`: start from the defaults
`{text: '', html: '', files: []}`; a null/undefined `clipboardData` returns
them unchanged; each field is then filled from its accessor inside its own
`try`/`catch`, a throw leaving the default in place; `files` is copied only
when present and non-empty.  The function never throws. -/
def parsePasteData {F : Type} (cd : Option (ClipboardDataModel F)) :
    PasteResult F :=
  match cd with
  | none => ⟨"", "", []⟩
  | some c =>
    ⟨(match c.getDataText with
      | Except.ok (some s) => s
      | Except.ok none => ""
      | Except.error _ => ""),
     (match c.getDataHtml with
      | Except.ok (some s) => s
      | Except.ok none => ""
      | Except.error _ => ""),
     (match c.files with
      | Except.ok (some fs) => if fs.length > 0 then fs else []
      | Except.ok none => []
      | Except.error _ => [])⟩

-- ====================================================================
-- Concrete environments and operations used by witnesses
-- ====================================================================

/-- An operation that fails on every invocation, with a distinct error per
invocation index. -/
def copFail (k : Nat) : Except String Unit :=
  Except.error ("err" ++ toString k)

/-- Invocations that complete instantly. -/
def zeroDur (_ : Nat) : Nat := 0

/-- An operation that always succeeds with the value 7. -/
def slowOk (_ : Nat) : Except String Nat := Except.ok 7

/-- Invocations that each take 1000 ms. -/
def slowDur (_ : Nat) : Nat := 1000

/-- A process environment in which no clipboard utility can be spawned. -/
def envNoUtils : SpawnEnv := fun _ _ => ProcOutcome.spawnError "ENOENT"

/-- A process environment in which every command exits 0. -/
def envExit0 : SpawnEnv := fun _ _ => ProcOutcome.exit 0

/-- A process environment in which every command exits 1. -/
def envExit1 : SpawnEnv := fun _ _ => ProcOutcome.exit 1

/-- A read environment: every command exits 0 with output `"hello\r\n"`. -/
def envWinRead : ReadEnv := fun _ _ => ⟨ProcOutcome.exit 0, "hello\r\n"⟩

/-- A read environment: every command exits 0 with output `"hello\n"`. -/
def envMacRead : ReadEnv := fun _ _ => ⟨ProcOutcome.exit 0, "hello\n"⟩

/-- A headless Node permission environment. -/
def permEnvNode : PermEnv := ⟨false, true, true, fun _ => QueryOutcome.resolved "granted"⟩

/-- An interactive environment without `navigator.permissions.query`. -/
def permEnvNoQuery : PermEnv := ⟨true, false, false, fun _ => QueryOutcome.resolved "granted"⟩

/-- An interactive environment whose permission query rejects. -/
def permEnvRejected : PermEnv := ⟨true, false, true, fun _ => QueryOutcome.rejected⟩

/-- An arbitrary host environment for the invalid-argument witness. -/
def envAny : JsEnv :=
  ⟨true, false, true, Except.ok (), true, "linux", fun _ _ => ProcOutcome.exit 0⟩

/-- A clipboard-data object whose every accessor throws. -/
def cdThrow : ClipboardDataModel Nat :=
  ⟨Except.error (), Except.error (), Except.error ()⟩

/-- A clipboard-data object with ordinary data. -/
def cdOk : ClipboardDataModel Nat :=
  ⟨Except.ok (some "hi"), Except.ok (some "<b>hi</b>"), Except.ok (some [3, 4])⟩

-- ====================================================================
-- C1
-- ====================================================================

/-- Claim C1: for every environment and text, one attempt of the `copyText`
chain tries the mechanisms in the claimed fixed order, first applicable wins:
(1) detected in-process asynchronous write API, whose failure falls back to
the legacy mechanism exactly when an interactive document context exists and
otherwise rejects with `'Clipboard API failed and no fallback available'`;
(2) legacy mechanism in an interactive context without the API; (3) the OS
Process Adapter write in a headless Node process; (4) otherwise rejection
with `'No clipboard method available in this environment'`.  Each step's
failure is pattern-matched before the next step's result is computed, and the
mechanism trace records the attempts in order. -/
theorem copyText_chain_order (env : JsEnv) (text : String) :
    copyTextAttempt env text = copyTextChainSpec env text := by
  rcases env with ⟨ib, inn, nw, wo, ec, pf, sp⟩
  cases ib <;> cases inn <;> cases nw <;>
    simp [copyTextAttempt, copyTextChainSpec, isClipboardAPIAvailable]

-- ====================================================================
-- C2
-- ====================================================================

/-- Claim C2 counterexample: with the retry configuration
`{retries: 1, retryDelay: 100, timeout: 50}` and the permanently failing
operation `copFail` (every invocation `k` rejects with the distinct error
`"err" ++ toString k`, instantly), the operation is indeed invoked
`1 + 1 = 2` times, but the rejection the caller observes is the timeout
error — the timer fires at 50 ms, before the 100 ms backoff delay ends — and
not the error `"err1"` of the 2nd invocation.  So the claim's universally
quantified statement over every retry configuration fails: a configured
timeout can preempt the final failure. -/
theorem retryOperation_timeout_preempts :
    (retryOperation copFail zeroDur
        (RetryConfigInput.obj (some 1) (some 100) (some 50))).result
      = Except.error "Operation timed out after 50ms"
    ∧ (retryOperation copFail zeroDur
        (RetryConfigInput.obj (some 1) (some 100) (some 50))).invocations = 2
    ∧ copFail 1 = Except.error "err1"
    ∧ "Operation timed out after 50ms" ≠ "err1" := by
  refine ⟨rfl, rfl, rfl, by decide⟩

/-- Claim C2 (amended): for every retry configuration with `retries = N` and
every operation failing on every invocation, `retryOperation` invokes the
operation exactly `N + 1` times (the sequence continues in the background
even past a fired timeout), and — provided the configured timeout is zero or
negative, or does not elapse before the retry sequence's final failure (its
total duration being the `N + 1` invocation durations plus the backoff
delays `D * 2 ^ i`, `i < N`) — the rejection observed by the caller is
exactly the error value produced by the `(N+1)`-th invocation, not wrapped
or altered.  In particular `retries = 0` means exactly one attempt. -/
theorem retryOperation_allFail (α : Type) (op : Nat → Except String α)
    (dur : Nat → Nat) (e : Nat → String) (N D : Nat) (T : Int)
    (h : ∀ k, op k = Except.error (e k)) :
    (retryOperation op dur (RetryConfigInput.obj (some N) (some D) (some T))).invocations
        = N + 1
    ∧ ((T ≤ 0 ∨
          ((sumDur dur (N + 1) + ((List.range N).map (fun i => 2 ^ i * D)).sum : Nat) : Int) ≤ T) →
        (retryOperation op dur (RetryConfigInput.obj (some N) (some D) (some T))).result
          = Except.error (e N)) := by
  have hr := tryOnce_allFail op e D h N 0
  simp only [Nat.zero_add] at hr
  refine ⟨?_, ?_⟩
  · show (tryOnce op D 0 N).2.1 = N + 1
    rw [hr]
  · intro hT
    show (withTimeout (sumDur dur (tryOnce op D 0 N).2.1 + ((tryOnce op D 0 N).2.2).sum)
        (tryOnce op D 0 N).1 T).2 = Except.error (e N)
    rw [hr]
    show (withTimeout (sumDur dur (N + 1) + ((List.range N).map (fun i => 2 ^ i * D)).sum)
        (Except.error (e N)) T).2 = Except.error (e N)
    rcases hT with hT | hT
    · unfold withTimeout
      rw [if_pos hT]
    · unfold withTimeout
      split_ifs with h1 h2
      · rfl
      · exfalso
        omega
      · rfl

/-- Witness for `retryOperation_allFail` at `N = 2`, `D = 5`, `T = 0` and the
concrete permanently failing operation `copFail`. -/
theorem retryOperation_allFail_witness :
    (retryOperation copFail zeroDur
        (RetryConfigInput.obj (some 2) (some 5) (some 0))).invocations = 3
    ∧ (retryOperation copFail zeroDur
        (RetryConfigInput.obj (some 2) (some 5) (some 0))).result
      = Except.error "err2" := by
  have h := retryOperation_allFail Unit copFail zeroDur
    (fun k => "err" ++ toString k) 2 5 0 (fun k => rfl)
  exact ⟨h.1, h.2 (Or.inl (by decide))⟩

-- ====================================================================
-- C3
-- ====================================================================

/-- Elements of a mapped range are the map's values. -/
theorem get_of_range_map {β : Type} (f : Nat → β) (m i : Nat) (l : List β)
    (hl : l = (List.range m).map f) (h : i < l.length) : l.get ⟨i, h⟩ = f i := by
  subst hl
  simp [List.get_eq_getElem]

/-- Claim C3: for every retry configuration with `retryDelay = D`, whenever
`retryOperation` schedules a k-th backoff delay (k ≥ 1, i.e. index `k - 1`
in the scheduled-delay trace), that delay equals `D * 2 ^ (k - 1)`
milliseconds; in particular the first retry waits exactly `D`. -/
theorem retryOperation_backoff (α : Type) (op : Nat → Except String α)
    (dur : Nat → Nat) (N D : Nat) (T : Int) (k : Nat) (hk : 1 ≤ k)
    (h : k - 1 < (retryOperation op dur
        (RetryConfigInput.obj (some N) (some D) (some T))).delays.length) :
    (retryOperation op dur
        (RetryConfigInput.obj (some N) (some D) (some T))).delays.get ⟨k - 1, h⟩
      = D * 2 ^ (k - 1) := by
  obtain ⟨m, hm⟩ := tryOnce_delays op D N 0
  simp only [Nat.zero_add] at hm
  have hm' : (retryOperation op dur
      (RetryConfigInput.obj (some N) (some D) (some T))).delays
      = (List.range m).map (fun i => 2 ^ i * D) := hm
  rw [get_of_range_map (fun i => 2 ^ i * D) m (k - 1) _ hm' h]
  exact Nat.mul_comm _ _

/-- Witness for `retryOperation_backoff`: with `retries = 2`, `D = 100` and a
permanently failing operation, the delay before the 2nd retry is
`100 * 2 ^ 1 = 200` ms. -/
theorem retryOperation_backoff_witness :
    (retryOperation copFail zeroDur
        (RetryConfigInput.obj (some 2) (some 100) (some 0))).delays.get
      ⟨1, by decide⟩ = 100 * 2 ^ 1 :=
  retryOperation_backoff Unit copFail zeroDur 2 100 0 2 (by decide) (by decide)

-- ====================================================================
-- C4
-- ====================================================================

/-- Claim C4: for `timeout = T > 0` the entire retry sequence is raced
against a single timer — if the sequence (or any promise) would first
succeed at elapsed time `t > T`, the caller observes the timeout error at
time `T` rather than the late success; for `timeout <= 0` no timer is
installed and an arbitrarily slow successful completion still resolves with
the success value.  Stated both for `withTimeout` on an arbitrary settled
promise and for `retryOperation`, whose whole sequence (invocation durations
plus backoff delays) is raced once. -/
theorem withTimeout_race (α : Type) (v : α) (t : Nat)
    (op : Nat → Except String α) (dur : Nat → Nat) (N D : Nat) (T : Int) :
    (0 < T → (t : Int) > T →
      withTimeout t (Except.ok v) T =
        (T.toNat, Except.error ("Operation timed out after " ++ toString T ++ "ms")))
    ∧ (T ≤ 0 → withTimeout t (Except.ok v) T = (t, Except.ok v))
    ∧ (0 < T →
        ((sumDur dur ((tryOnce op D 0 N).2.1) + ((tryOnce op D 0 N).2.2).sum : Nat) : Int) > T →
        (retryOperation op dur (RetryConfigInput.obj (some N) (some D) (some T))).result
            = Except.error ("Operation timed out after " ++ toString T ++ "ms")
        ∧ (retryOperation op dur (RetryConfigInput.obj (some N) (some D) (some T))).time
            = T.toNat)
    ∧ (T ≤ 0 →
        (retryOperation op dur (RetryConfigInput.obj (some N) (some D) (some T))).result
            = (tryOnce op D 0 N).1
        ∧ (retryOperation op dur (RetryConfigInput.obj (some N) (some D) (some T))).time
            = sumDur dur ((tryOnce op D 0 N).2.1) + ((tryOnce op D 0 N).2.2).sum) := by
  refine ⟨?_, ?_, ?_, ?_⟩
  · intro h1 h2
    unfold withTimeout
    rw [if_neg (by omega), if_pos h2]
  · intro h1
    unfold withTimeout
    rw [if_pos h1]
  · intro h1 h2
    have hres : (retryOperation op dur (RetryConfigInput.obj (some N) (some D) (some T)))
        = ⟨(withTimeout (sumDur dur ((tryOnce op D 0 N).2.1) + ((tryOnce op D 0 N).2.2).sum)
              (tryOnce op D 0 N).1 T).1,
           (withTimeout (sumDur dur ((tryOnce op D 0 N).2.1) + ((tryOnce op D 0 N).2.2).sum)
              (tryOnce op D 0 N).1 T).2,
           (tryOnce op D 0 N).2.1, (tryOnce op D 0 N).2.2⟩ := rfl
    rw [hres]
    unfold withTimeout
    rw [if_neg (by omega), if_pos h2]
    exact ⟨rfl, rfl⟩
  · intro h1
    have hres : (retryOperation op dur (RetryConfigInput.obj (some N) (some D) (some T)))
        = ⟨(withTimeout (sumDur dur ((tryOnce op D 0 N).2.1) + ((tryOnce op D 0 N).2.2).sum)
              (tryOnce op D 0 N).1 T).1,
           (withTimeout (sumDur dur ((tryOnce op D 0 N).2.1) + ((tryOnce op D 0 N).2.2).sum)
              (tryOnce op D 0 N).1 T).2,
           (tryOnce op D 0 N).2.1, (tryOnce op D 0 N).2.2⟩ := rfl
    rw [hres]
    unfold withTimeout
    rw [if_pos h1]
    exact ⟨rfl, rfl⟩

/-- Witness for `withTimeout_race`: a promise succeeding with 7 at 100 ms
races a 50 ms timer and the caller sees the timeout error at 50 ms; with
timeout 0 the same slow success resolves with 7; likewise through
`retryOperation` with a single 1000 ms successful invocation. -/
theorem withTimeout_race_witness :
    withTimeout 100 (Except.ok (7 : Nat)) 50 =
      (50, Except.error "Operation timed out after 50ms")
    ∧ withTimeout 100 (Except.ok (7 : Nat)) 0 = (100, Except.ok 7)
    ∧ (retryOperation slowOk slowDur (RetryConfigInput.obj (some 0) (some 100) (some 50))).result
        = Except.error "Operation timed out after 50ms"
    ∧ (retryOperation slowOk slowDur (RetryConfigInput.obj (some 0) (some 100) (some 0))).result
        = Except.ok 7 := by
  have h1 := withTimeout_race Nat 7 100 slowOk slowDur 0 100 50
  have h2 := withTimeout_race Nat 7 100 slowOk slowDur 0 100 0
  exact ⟨h1.1 (by decide) (by decide), h2.2.1 (by decide),
    (h1.2.2.1 (by decide) (by decide)).1, (h2.2.2.2 (by decide)).1⟩

-- ====================================================================
-- C5
-- ====================================================================

/-- Claim C5: when the primary write utility fails to spawn (`'error'`
event, binary missing) on a platform that is neither `win32` nor `darwin`,
the adapter attempts the secondary utility `xsel --clipboard --input` with
the same text before any rejection reaches the caller, and if the secondary
also fails to spawn the final error names both attempted utilities (`xclip`
and `xsel`); on `win32` and `darwin` a spawn failure is terminal, with
exactly one spawn attempt and no secondary. -/
theorem nodeClipboardCopy_linux_fallback (text platform : String)
    (env : SpawnEnv) (m m2 : String) :
    (platform ≠ "win32" → platform ≠ "darwin" →
      env "xclip" ["-selection", "clipboard"] = ProcOutcome.spawnError m →
      (nodeClipboardCopy true text platform env).2 =
        [("xclip", ["-selection", "clipboard"], text),
         ("xsel", ["--clipboard", "--input"], text)]
      ∧ (env "xsel" ["--clipboard", "--input"] = ProcOutcome.spawnError m2 →
          (nodeClipboardCopy true text platform env).1 =
            Except.error ("No clipboard command available. Install xclip or xsel. " ++ m2)))
    ∧ (env "clip" [] = ProcOutcome.spawnError m →
        nodeClipboardCopy true text "win32" env =
          (Except.error ("Clipboard command failed: clip - " ++ m), [("clip", [], text)]))
    ∧ (env "pbcopy" [] = ProcOutcome.spawnError m →
        nodeClipboardCopy true text "darwin" env =
          (Except.error ("Clipboard command failed: pbcopy - " ++ m), [("pbcopy", [], text)])) := by
  refine ⟨?_, ?_, ?_⟩
  · intro h1 h2 henv
    have hca : writeCmdArgs platform = ("xclip", ["-selection", "clipboard"]) := by
      unfold writeCmdArgs
      rw [if_neg h1, if_neg h2]
    have htr : (nodeClipboardCopyFallback text env).2 =
        [("xsel", ["--clipboard", "--input"], text)] := by
      unfold nodeClipboardCopyFallback
      cases env "xsel" ["--clipboard", "--input"] <;> rfl
    constructor
    · simp [nodeClipboardCopy, hca, henv, htr, h1, h2]
    · intro henv2
      simp [nodeClipboardCopy, hca, henv, nodeClipboardCopyFallback, henv2, h1, h2]
  · intro henv
    simp [nodeClipboardCopy, writeCmdArgs, henv]
  · intro henv
    simp [nodeClipboardCopy, writeCmdArgs, henv]

/-- Witness for `nodeClipboardCopy_linux_fallback` in a process environment
where no utility can be spawned: on `linux` both utilities are attempted in
order with the same text and the final error names both; on `win32` the
failure is terminal after the single `clip` attempt. -/
theorem nodeClipboardCopy_linux_fallback_witness :
    (nodeClipboardCopy true "hi" "linux" envNoUtils).2 =
      [("xclip", ["-selection", "clipboard"], "hi"),
       ("xsel", ["--clipboard", "--input"], "hi")]
    ∧ (nodeClipboardCopy true "hi" "linux" envNoUtils).1 =
        Except.error "No clipboard command available. Install xclip or xsel. ENOENT"
    ∧ nodeClipboardCopy true "hi" "win32" envNoUtils =
        (Except.error "Clipboard command failed: clip - ENOENT", [("clip", [], "hi")]) := by
  have h := nodeClipboardCopy_linux_fallback "hi" "linux" envNoUtils "ENOENT" "ENOENT"
  exact ⟨(h.1 (by decide) (by decide) rfl).1, (h.1 (by decide) (by decide) rfl).2 rfl,
    h.2.1 rfl⟩

-- ====================================================================
-- C6
-- ====================================================================

/-- Claim C6: on every platform, the OS Process Adapter write resolves with
exactly the original input text when the spawned process exits 0, and for
every non-zero exit code rejects with an exit-code error carrying that code
(so it never resolves on a non-zero exit). -/
theorem nodeClipboardCopy_exit (text platform : String) (env : SpawnEnv)
    (code : Int) :
    (env (writeCmdArgs platform).1 (writeCmdArgs platform).2 = ProcOutcome.exit 0 →
      (nodeClipboardCopy true text platform env).1 = Except.ok text)
    ∧ (code ≠ 0 →
        env (writeCmdArgs platform).1 (writeCmdArgs platform).2 = ProcOutcome.exit code →
        (nodeClipboardCopy true text platform env).1 =
          Except.error ("Clipboard command exited with code: " ++ toString code)) := by
  constructor
  · intro henv
    simp [nodeClipboardCopy, henv]
  · intro hc henv
    simp [nodeClipboardCopy, henv, hc]

/-- Witness for `nodeClipboardCopy_exit`: exit code 0 resolves with the
original text `"abc"`; exit code 1 rejects with the exit-code error
carrying 1. -/
theorem nodeClipboardCopy_exit_witness :
    (nodeClipboardCopy true "abc" "darwin" envExit0).1 = Except.ok "abc"
    ∧ (nodeClipboardCopy true "abc" "darwin" envExit1).1 =
        Except.error "Clipboard command exited with code: 1" := by
  exact ⟨(nodeClipboardCopy_exit "abc" "darwin" envExit0 1).1 rfl,
    (nodeClipboardCopy_exit "abc" "darwin" envExit1 1).2 (by decide) rfl⟩

-- ====================================================================
-- C7
-- ====================================================================

/-- Claim C7: for every clipboard read via the OS Process Adapter with exit
code 0, on `win32` the resolved string is the accumulated standard output
with exactly one trailing line terminator (`"\n"` or `"\r\n"`) removed when
one is present, and on every other platform the accumulated output is
resolved unchanged.  The conjuncts characterise
`stripTrailingNewline` as exactly that one-terminator removal. -/
theorem nodeClipboardRead_strip (platform : String) (env : ReadEnv) :
    ((env (readCmdArgs platform).1 (readCmdArgs platform).2).outcome = ProcOutcome.exit 0 →
      nodeClipboardRead true platform env =
        Except.ok (if platform = "win32"
          then stripTrailingNewline
            (env (readCmdArgs platform).1 (readCmdArgs platform).2).output
          else (env (readCmdArgs platform).1 (readCmdArgs platform).2).output))
    ∧ (∀ l : List Char,
        stripTrailingNewline (String.mk (l ++ ['\r', '\n'])) = String.mk l)
    ∧ (∀ l : List Char, l.getLast? ≠ some '\r' →
        stripTrailingNewline (String.mk (l ++ ['\n'])) = String.mk l)
    ∧ (∀ s : String, s.data.getLast? ≠ some '\n' → stripTrailingNewline s = s)
    ∧ (platform ≠ "win32" →
        (env (readCmdArgs platform).1 (readCmdArgs platform).2).outcome = ProcOutcome.exit 0 →
        nodeClipboardRead true platform env =
          Except.ok (env (readCmdArgs platform).1 (readCmdArgs platform).2).output) := by
  have key : ∀ x : List Char, (String.mk x).data = x := fun _ => rfl
  refine ⟨?_, ?_, ?_, ?_, ?_⟩
  · intro houtcome
    simp [nodeClipboardRead, houtcome]
  · intro l
    simp only [stripTrailingNewline, key]
    rw [show l ++ ['\r', '\n'] = (l ++ ['\r']) ++ ['\n'] by simp]
    simp [List.getLast?_concat, List.dropLast_concat]
  · intro l hl
    simp only [stripTrailingNewline, key]
    simp [List.getLast?_concat, List.dropLast_concat, hl]
  · intro s hs
    simp [stripTrailingNewline, hs]
  · intro hp houtcome
    simp [nodeClipboardRead, houtcome, hp]

/-- Witness for `nodeClipboardRead_strip`: on `win32`, accumulated output
`"hello\r\n"` resolves as `"hello"`; on `darwin`, `"hello\n"` is resolved
unchanged; the strip helper removes exactly one terminator and leaves
terminator-free strings alone. -/
theorem nodeClipboardRead_strip_witness :
    nodeClipboardRead true "win32" envWinRead = Except.ok "hello"
    ∧ nodeClipboardRead true "darwin" envMacRead = Except.ok "hello\n"
    ∧ stripTrailingNewline "hello\r\n" = "hello"
    ∧ stripTrailingNewline "hi" = "hi" := by
  have hw := nodeClipboardRead_strip "win32" envWinRead
  have hm := nodeClipboardRead_strip "darwin" envMacRead
  refine ⟨hw.1 rfl, hm.2.2.2.2 (by decide) rfl, hw.2.1 ("hello".data),
    hw.2.2.2.1 "hi" (by decide)⟩

-- ====================================================================
-- C8
-- ====================================================================

/-- Claim C8: for `kind` in `{'read', 'write'}`, `queryPermission` in a
headless Node context resolves `{state: 'granted'}`, and in an interactive
context where the platform permission subsystem is absent, or where the
permission query rejects or throws, it resolves `{state: 'prompt'}`; in both
cases it resolves (`Except.ok`) and never rejects. -/
theorem queryPermission_states (name : String) (env : PermEnv)
    (hname : name = "read" ∨ name = "write") :
    (env.isNode = true → env.isBrowser = false →
      NowClipboard.queryPermission name env = Except.ok ⟨"granted"⟩)
    ∧ (env.isNode = false → env.isBrowser = true →
        (env.hasPermissionsQuery = false
          ∨ env.queryOutcome ("clipboard-" ++ name) = QueryOutcome.rejected
          ∨ env.queryOutcome ("clipboard-" ++ name) = QueryOutcome.throws) →
        NowClipboard.queryPermission name env = Except.ok ⟨"prompt"⟩) := by
  have hguard : ¬(name ≠ "read" ∧ name ≠ "write") := by
    rcases hname with h | h <;> simp [h]
  constructor
  · intro hn _
    unfold NowClipboard.queryPermission
    rw [if_neg hguard, if_pos hn]
  · intro hn hb hq
    unfold NowClipboard.queryPermission
    rw [if_neg hguard, if_neg (by simp [hn])]
    refine congrArg Except.ok ?_
    unfold queryClipboardPermission
    cases hhp : env.hasPermissionsQuery
    · rw [if_pos (by simp [hhp])]
    · rw [if_neg (by simp [hb, hhp])]
      rcases hq with hq | hq | hq
      · rw [hhp] at hq
        cases hq
      · rw [hq]
      · rw [hq]

/-- Witness for `queryPermission_states`: a headless Node environment grants;
an interactive environment without `navigator.permissions.query` prompts; an
interactive environment whose query rejects prompts. -/
theorem queryPermission_states_witness :
    NowClipboard.queryPermission "read" permEnvNode = Except.ok ⟨"granted"⟩
    ∧ NowClipboard.queryPermission "read" permEnvNoQuery = Except.ok ⟨"prompt"⟩
    ∧ NowClipboard.queryPermission "write" permEnvRejected = Except.ok ⟨"prompt"⟩ := by
  refine ⟨(queryPermission_states "read" permEnvNode (Or.inl rfl)).1 rfl rfl,
    (queryPermission_states "read" permEnvNoQuery (Or.inl rfl)).2 rfl rfl (Or.inl rfl),
    (queryPermission_states "write" permEnvRejected (Or.inr rfl)).2 rfl rfl
      (Or.inr (Or.inl rfl))⟩

-- ====================================================================
-- C9
-- ====================================================================

/-- Claim C9: for every non-string argument, the public copy operation
rejects with the `TypeError` message
`'NowClipboard.copy() expects a string argument'` and its mechanism trace is
empty — no clipboard mechanism (in-process API, legacy command, or OS
adapter) is attempted, in any environment and for any options. -/
theorem copy_invalid_arg (v : JsVal) (env : JsEnv) (options : RetryConfigInput)
    (h : isStringVal v = false) :
    NowClipboard.copy v env options =
      (Except.error "NowClipboard.copy() expects a string argument", []) := by
  cases v <;> simp_all [isStringVal, NowClipboard.copy]

/-- Witness for `copy_invalid_arg` at the number 42. -/
theorem copy_invalid_arg_witness :
    NowClipboard.copy (JsVal.num 42) envAny RetryConfigInput.undef =
      (Except.error "NowClipboard.copy() expects a string argument", []) :=
  copy_invalid_arg (JsVal.num 42) envAny RetryConfigInput.undef rfl

-- ====================================================================
-- C10
-- ====================================================================

/-- Claim C10: `parsePasteData` is total (never throws) and always returns a
`{text, html, files}` record: a null/undefined `clipboardData` yields the
defaults `{text: '', html: '', files: []}`; a throwing or falsy `getData`
accessor leaves the empty-string default for its field, a string-valued one
is returned as-is, and a throwing or absent `files` property leaves the
empty-array default. -/
theorem parsePasteData_safe (F : Type) :
    parsePasteData (none : Option (ClipboardDataModel F)) = ⟨"", "", []⟩
    ∧ ∀ c : ClipboardDataModel F,
        (c.getDataText = Except.error () → (parsePasteData (some c)).text = "")
        ∧ (∀ s, c.getDataText = Except.ok (some s) → (parsePasteData (some c)).text = s)
        ∧ (c.getDataText = Except.ok none → (parsePasteData (some c)).text = "")
        ∧ (c.getDataHtml = Except.error () → (parsePasteData (some c)).html = "")
        ∧ (∀ s, c.getDataHtml = Except.ok (some s) → (parsePasteData (some c)).html = s)
        ∧ (c.files = Except.error () → (parsePasteData (some c)).files = [])
        ∧ (c.files = Except.ok none → (parsePasteData (some c)).files = []) := by
  refine ⟨rfl, ?_⟩
  intro c
  refine ⟨?_, ?_, ?_, ?_, ?_, ?_, ?_⟩
  · intro h
    simp [parsePasteData, h]
  · intro s h
    simp [parsePasteData, h]
  · intro h
    simp [parsePasteData, h]
  · intro h
    simp [parsePasteData, h]
  · intro s h
    simp [parsePasteData, h]
  · intro h
    simp [parsePasteData, h]
  · intro h
    simp [parsePasteData, h]

/-- Witness for `parsePasteData_safe` with concrete all-throwing and
ordinary clipboard-data objects over `F = Nat`. -/
theorem parsePasteData_safe_witness :
    parsePasteData (none : Option (ClipboardDataModel Nat)) = ⟨"", "", []⟩
    ∧ (parsePasteData (some cdThrow)).text = ""
    ∧ (parsePasteData (some cdThrow)).files = []
    ∧ (parsePasteData (some cdOk)).text = "hi" := by
  have h := parsePasteData_safe Nat
  exact ⟨h.1, (h.2 cdThrow).1 rfl, (h.2 cdThrow).2.2.2.2.2.1 rfl,
    (h.2 cdOk).2.1 "hi" rfl⟩
